import Mathlib

/-!
Shallow embedding of the trading engine's risk/kill-switch/execution core
(src/src/modules/risk/service/killswitch.service.js,
src/src/modules/risk/service/risklimit.service.js, and the execution /
order services in src/unnamed/part_012).

Conventions of the embedding:
* JavaScript numbers are modelled as exact rationals (ℚ); every arithmetic
  fact proved below is far from any double-rounding boundary, and the one
  boundary case (2000/100000*100 = 2) is also exact in IEEE doubles.
* Statuses are the literal strings the services compare against.
* Fallible collaborator calls (cache, store, broker) are passed in as
  `Except Unit _` values or as `Bool` fault flags; a `try/catch` in the
  source is modelled as an explicit `...Try` body plus a total wrapper
  that pattern-matches the `Except`.
* Fire-and-forget effects (logging, audit) are not modelled; no claim
  mentions them.
-/

deriving instance DecidableEq for Except

namespace TradingEngine

/-- Error taxonomy from src/src/shared/errors/errors.js.  Only the classes
the verified services construct are included; each JS class becomes one
constructor, so class distinctness is constructor distinctness. -/
inductive AppError where
  | badRequest (message : String)
  | notFound (message : String)
  | killSwitch (message : String)
  | riskViolation (message : String)
  | orderExecution (message : String) (code : String)
  | internal (message : String)
deriving DecidableEq, Repr

/-- The Order row as the services read and write it
(src/src/infrastructure/database/models/Order.js).  `updatedToday`
abstracts the `updatedAt >= today` filter of the daily-loss query. -/
structure OrderRec where
  status : String := "PENDING"
  kiteOrderId : Option String := none
  transactionType : String := "BUY"
  quantity : ℚ := 0
  price : Option ℚ := none
  averagePrice : Option ℚ := none
  filledQuantity : Option ℚ := none
  statusMessage : Option String := none
  updatedToday : Bool := false
deriving DecidableEq, Repr

/-- The TradeIntent row fields the services read and write
(src/src/infrastructure/database/models/TradeIntent.js). -/
structure TradeIntentRec where
  status : String := "PENDING"
  rejectionReason : Option String := none
  symbol : String := ""
  transactionType : String := "BUY"
  quantity : ℚ := 0
  price : Option ℚ := none
deriving DecidableEq, Repr

/-- An ACTIVE RiskLimit row (models/RiskLimit.js) as the evaluator reads it. -/
structure RiskLimit where
  limitType : String
  value : ℚ
  unit : String
  status : String := "ACTIVE"
deriving DecidableEq, Repr

/-- Shape of one risk check's result object (risklimit.service.js).
`critical` defaults to false matching the JS truthiness test on an
absent `critical` property. -/
structure CheckResult where
  passed : Bool
  check : String
  reason : Option String := none
  critical : Bool := false
deriving DecidableEq, Repr

namespace KillSwitchService

/-- killswitch.service.js lines 19-43 (`isEnabled`).  `cacheGet` is the
result of `cache.get(CACHE_KEY)` (error = threw, `none` = cache miss),
`dbFind` the result of `SystemFlag.findOne` (`none` = no row), `cacheSet`
the result of the write-back.  The whole body is inside one `try`; the
`catch` returns `true` (fail-safe toward blocking). -/
def isEnabled (cacheGet : Except Unit (Option Bool))
    (dbFind : Except Unit (Option Bool))
    (cacheSet : Except Unit Unit) : Bool :=
  match cacheGet with
  | .error _ => true
  | .ok (some cachedEnabled) => cachedEnabled
  | .ok none =>
    match dbFind with
    | .error _ => true
    | .ok killSwitchRow =>
      let flagEnabled := match killSwitchRow with
        | some enabled => enabled
        | none => false
      match cacheSet with
      | .error _ => true
      | .ok _ => flagEnabled

/-- killswitch.service.js lines 328-334 (`enforce`). -/
def enforce (cacheGet : Except Unit (Option Bool))
    (dbFind : Except Unit (Option Bool))
    (cacheSet : Except Unit Unit) : Except AppError Unit :=
  if isEnabled cacheGet dbFind cacheSet then
    .error (.killSwitch "Kill switch is enabled. All trading operations are blocked.")
  else
    .ok ()

/-- Result of one toggle call: the SystemFlag row afterwards (`none` =
row absent, `some b` = row present with `enabled = b`), how many
square-off/cancel unwind passes ran, and whether the call resolved
without throwing. -/
structure ToggleResult where
  flag : Option Bool
  unwindPasses : Nat
  success : Bool
deriving DecidableEq, Repr

/-- killswitch.service.js lines 52-104 (`enable`), happy path of the DB
calls.  `findOrCreate` with `defaults.enabled = true` creates an already
ENABLED row when the row is absent, and the `if (killSwitch.enabled)`
guard then returns early, so the unwind (squareOffAllPositions +
cancelAllPendingOrders) runs only when a row existed and was disabled. -/
def enable (flag : Option Bool) : ToggleResult :=
  match flag with
  | none => { flag := some true, unwindPasses := 0, success := true }
  | some true => { flag := some true, unwindPasses := 0, success := true }
  | some false => { flag := some true, unwindPasses := 1, success := true }

/-- killswitch.service.js lines 156-198 (`autoTrigger`).  The update is
guarded by `if (!killSwitch.enabled)`, but the unwind calls run
unconditionally on every invocation. -/
def autoTrigger (flag : Option Bool) : ToggleResult :=
  match flag with
  | none => { flag := some true, unwindPasses := 1, success := true }
  | some enabled =>
    { flag := some (if enabled then enabled else true), unwindPasses := 1, success := true }

/-- killswitch.service.js lines 112-148 (`disable`).  Absent row or
already-disabled row returns success with no update; no unwind ever. -/
def disable (flag : Option Bool) : ToggleResult :=
  match flag with
  | none => { flag := none, unwindPasses := 0, success := true }
  | some false => { flag := some false, unwindPasses := 0, success := true }
  | some true => { flag := some false, unwindPasses := 0, success := true }

/-- One order's treatment inside `cancelAllPendingOrders`
(killswitch.service.js lines 264-322): the DB query restricts to
status in PENDING/SUBMITTED/OPEN; an order without `kiteOrderId` is
skipped; a broker cancel error is caught per order, leaving it
unchanged. -/
def cancelPendingOrderStep (o : OrderRec) (brokerCancel : Except Unit Unit) : OrderRec :=
  if ["PENDING", "SUBMITTED", "OPEN"].contains o.status then
    match o.kiteOrderId, brokerCancel with
    | some _, .ok _ => { o with status := "CANCELLED" }
    | _, _ => o
  else o

end KillSwitchService

namespace RiskService

/-- config.app.risk.circuitBreakerThreshold default
(src/src/shared/config/app.js). -/
def circuitBreakerThreshold : Nat := 5

/-- risklimit.service.js lines 818-852 (`checkCircuitBreaker`).  `entry`
is the cached per-user counter (`none` = no entry), `getOk` whether
`cache.get` resolved; the `catch` returns a passing result (fail-open). -/
def checkCircuitBreaker (entry : Option Nat) (getOk : Bool) (threshold : Nat) : CheckResult :=
  if getOk then
    let failureCount := entry.getD 0
    if failureCount ≥ threshold then
      { passed := false, check := "CIRCUIT_BREAKER",
        reason := some ("Circuit breaker triggered: " ++ toString failureCount ++ " consecutive failures"),
        critical := true }
    else
      { passed := true, check := "CIRCUIT_BREAKER" }
  else
    { passed := true, check := "CIRCUIT_BREAKER" }

/-- Post-state of `incrementCircuitBreaker`: the cache entry and whether
`killSwitchService.autoTrigger` was invoked. -/
structure CBState where
  entry : Option Nat
  autoTriggered : Bool
deriving DecidableEq, Repr

/-- The `try` body of risklimit.service.js lines 858-880
(`incrementCircuitBreaker`): read the counter, write count+1 back with a
fresh TTL, and invoke `autoTrigger` when the new count reaches the
threshold.  A throw of `cache.get` (`getOk = false`) or `cache.set`
(`setOk = false`) aborts the body before the trigger. -/
def incrementCircuitBreakerTry (entry : Option Nat) (getOk setOk : Bool)
    (threshold : Nat) : Except Unit CBState :=
  if getOk then
    let count := entry.getD 0 + 1
    if setOk then
      .ok { entry := some count, autoTriggered := decide (count ≥ threshold) }
    else
      .error ()
  else
    .error ()

/-- risklimit.service.js lines 858-880: the `catch` only logs, so the
call always returns; on a cache error the entry is unchanged and no
auto-trigger happens. -/
def incrementCircuitBreaker (entry : Option Nat) (getOk setOk : Bool)
    (threshold : Nat) : CBState :=
  match incrementCircuitBreakerTry entry getOk setOk threshold with
  | .error _ => { entry := entry, autoTriggered := false }
  | .ok st => st

/-- The `try` body of risklimit.service.js lines 886-893
(`resetCircuitBreaker`): `cache.del` removes the entry. -/
def resetCircuitBreakerTry (_entry : Option Nat) (delOk : Bool) :
    Except Unit (Option Nat) :=
  if delOk then .ok none else .error ()

/-- risklimit.service.js lines 886-893: the `catch` only logs. -/
def resetCircuitBreaker (entry : Option Nat) (delOk : Bool) : Option Nat :=
  match resetCircuitBreakerTry entry delOk with
  | .error _ => entry
  | .ok e => e

/-- JS truthiness of a possibly-absent numeric column: `null`, `undefined`
and `0` are falsy. -/
def truthy (x : Option ℚ) : Bool :=
  match x with
  | none => false
  | some v => decide (v ≠ 0)

/-- One order's contribution inside the `todaysOrders.forEach` of
risklimit.service.js lines 627-634: guarded by
`if (order.averagePrice && order.filledQuantity)`, then
`pnl = (averagePrice - (price || 0)) * filledQuantity`, negated for BUY. -/
def orderPnlContribution (o : OrderRec) : ℚ :=
  if truthy o.averagePrice && truthy o.filledQuantity then
    let pnl := (o.averagePrice.getD 0 - o.price.getD 0) * o.filledQuantity.getD 0
    if o.transactionType = "BUY" then -pnl else pnl
  else 0

/-- Realized P&L over the orders returned by the daily-loss query
(risklimit.service.js lines 617-634): the query keeps the user's orders
with `status = COMPLETE` and `updatedAt >= today`, then sums each
contribution. -/
def realizedPnlToday (orders : List OrderRec) : ℚ :=
  ((orders.filter fun o => o.status = "COMPLETE" && o.updatedToday).map
    orderPnlContribution).sum

/-- risklimit.service.js lines 597-682 (`checkDailyLoss`), fault-free
path.  `limit` is the user's ACTIVE DAILY_LOSS RiskLimit row (if any),
`orders` the user's order rows, `accountValue` the result of
`getAccountValue`.  The numeric suffix of the failure reason string
(`toFixed` output) is not reproduced.  The `catch` branch (any thrown
collaborator error becomes a non-critical failure) is not exercised by
the claims and is not fault-injected here. -/
def checkDailyLoss (limit : Option RiskLimit) (orders : List OrderRec)
    (accountValue : ℚ) : CheckResult :=
  match limit with
  | none => { passed := true, check := "DAILY_LOSS" }
  | some l =>
    let realizedPnl := realizedPnlToday orders
    let lossPercentage := if accountValue > 0 then |realizedPnl| / accountValue * 100 else 0
    let maxLossPercentage :=
      if l.unit = "PERCENTAGE" then l.value else l.value / accountValue * 100
    if realizedPnl < 0 ∧ lossPercentage ≥ maxLossPercentage then
      { passed := false, check := "DAILY_LOSS",
        reason := some "Daily loss limit exceeded", critical := true }
    else
      { passed := true, check := "DAILY_LOSS" }

/-- risklimit.service.js lines 940-952 (`rejectTradeIntent`): the update
is unconditional — no guard on the intent's current status. -/
def rejectTradeIntent (tradeIntent : TradeIntentRec) (reason : Option String) :
    TradeIntentRec :=
  { tradeIntent with status := "REJECTED", rejectionReason := reason }

/-- Observable outcome of one `checkTradeIntent` run: the intent row
afterwards, whether the four risk checks were evaluated at all, whether
an `execute_order` job was enqueued, whether the kill switch was
auto-triggered, and the returned `passed` flag. -/
structure RiskCheckOutcome where
  intent : TradeIntentRec
  checksEvaluated : Bool
  executionEnqueued : Bool
  autoTriggered : Bool
  passed : Bool
deriving DecidableEq, Repr

/-- risklimit.service.js lines 511-589 (`checkTradeIntent`).
`killSwitchEnabled` is `killSwitchService.isEnabled()`; `results` are the
four check results in declared order (daily loss, position size, max
positions, circuit breaker) — `results.find(r => !r.passed)` picks the
first failure.  When the kill switch is enabled the checks array is never
built, the intent is rejected with reason "Kill switch is enabled", and
the function returns normally (no `KillSwitchError`). -/
def checkTradeIntent (intent : Option TradeIntentRec) (killSwitchEnabled : Bool)
    (results : List CheckResult) : Except AppError RiskCheckOutcome :=
  match intent with
  | none => .error (.internal "Trade intent not found")
  | some tradeIntent =>
    if killSwitchEnabled then
      .ok { intent := rejectTradeIntent tradeIntent (some "Kill switch is enabled"),
            checksEvaluated := false, executionEnqueued := false,
            autoTriggered := false, passed := false }
    else
      match results.find? (fun r => ! r.passed) with
      | some failedCheck =>
        .ok { intent := rejectTradeIntent tradeIntent failedCheck.reason,
              checksEvaluated := true, executionEnqueued := false,
              autoTriggered := failedCheck.critical, passed := false }
      | none =>
        .ok { intent := { tradeIntent with status := "APPROVED" },
              checksEvaluated := true, executionEnqueued := true,
              autoTriggered := false, passed := true }

/-- `n` consecutive fault-free `incrementCircuitBreaker` calls starting
from `entry`; returns the final cache entry and how many of the calls
invoked the kill-switch auto-trigger. -/
def incrementRun : Nat → Option Nat → Nat → Option Nat × Nat
  | 0, entry, _ => (entry, 0)
  | n + 1, entry, threshold =>
    let st := incrementCircuitBreaker entry true true threshold
    let rest := incrementRun n st.entry threshold
    (rest.1, (if st.autoTriggered then 1 else 0) + rest.2)

end RiskService

namespace ExecutionService

/-- src/unnamed/part_012 lines 270-284 (`mapKiteStatus`): fixed lookup
table; unrecognized broker statuses default to SUBMITTED. -/
def mapKiteStatus (kiteStatus : String) : String :=
  if kiteStatus = "PENDING" then "PENDING"
  else if kiteStatus = "OPEN" then "OPEN"
  else if kiteStatus = "COMPLETE" then "COMPLETE"
  else if kiteStatus = "CANCELLED" then "CANCELLED"
  else if kiteStatus = "REJECTED" then "REJECTED"
  else if kiteStatus = "VALIDATION PENDING" then "PENDING"
  else if kiteStatus = "MODIFY PENDING" then "OPEN"
  else if kiteStatus = "CANCEL PENDING" then "OPEN"
  else if kiteStatus = "TRIGGER PENDING" then "OPEN"
  else "SUBMITTED"

/-- The fields of `kiteOrder.data[0]` that the services consume
(broker `getOrder` response). -/
structure KiteOrderData where
  status : String
  average_price : Option ℚ := none
  filled_quantity : Option ℚ := none
  status_message : Option String := none
deriving DecidableEq, Repr

/-- One reconciliation tick's broker interaction: the `getOrder` call (or
the subsequent update) threw, returned an empty `data` array, or returned
one order record. -/
inductive PollResult where
  | throws
  | noData
  | withData (d : KiteOrderData)
deriving DecidableEq, Repr

/-- The body of one `setInterval` tick of src/unnamed/part_012 lines
199-258 (`monitorOrderStatus`), given the current Order row and the
poll's outcome.  The update is unconditional — the order's own current
status is never consulted.  Returns the updated row and whether a
terminal broker status was observed (stop condition).  Errors are caught
and monitoring continues. -/
def monitorPollUpdate (o : OrderRec) (p : PollResult) : OrderRec × Bool :=
  match p with
  | .throws => (o, false)
  | .noData => (o, false)
  | .withData d =>
    let status := mapKiteStatus d.status
    ({ o with status := status,
              averagePrice := d.average_price,
              filledQuantity := d.filled_quantity,
              statusMessage := d.status_message },
     ["COMPLETE", "CANCELLED", "REJECTED"].contains status)

/-- The whole reconciliation loop of `monitorOrderStatus` run against a
scripted sequence of poll outcomes: `budget` is the remaining attempt
budget (`maxAttempts`, default 60), each consumed script entry is one
issued `getOrder` poll.  The tick first re-reads the order and stops if
it has no `kiteOrderId`; it stops after a terminal observed status or a
spent budget.  Returns the final Order row and the number of polls
issued. -/
def monitorLoop : Nat → OrderRec → List PollResult → OrderRec × Nat
  | 0, o, _ => (o, 0)
  | _ + 1, o, [] => (o, 0)
  | budget + 1, o, p :: rest =>
    if o.kiteOrderId.isNone then (o, 0)
    else
      let step := monitorPollUpdate o p
      if step.2 then (step.1, 1)
      else
        let tail := monitorLoop budget step.1 rest
        (tail.1, tail.2 + 1)

/-- Collaborator outcomes `executeTradeIntent` depends on: whether an
ACTIVE KiteAccount row with an access token exists, and the broker
`placeOrder` result (error message, or the returned `order_id`). -/
structure ExecEnv where
  hasActiveAccount : Bool
  placeOrderResult : Except String String
deriving DecidableEq, Repr

/-- Observable outcome of one `executeTradeIntent` run. -/
structure ExecOutcome where
  intent : Option TradeIntentRec
  order : Option OrderRec
  errorMessage : Option String
  circuitBreakerIncremented : Bool
  circuitBreakerWasReset : Bool
deriving DecidableEq, Repr

/-- The Order row created from an intent (src/unnamed/part_012 lines
58-70). -/
def orderFromIntent (ti : TradeIntentRec) : OrderRec :=
  { status := "PENDING", kiteOrderId := none,
    transactionType := ti.transactionType, quantity := ti.quantity,
    price := ti.price, averagePrice := none, filledQuantity := none,
    statusMessage := none, updatedToday := true }

/-- src/unnamed/part_012 lines 21-186 (`executeTradeIntent`) including
its `catch` handler.  The status guard rejects any non-APPROVED intent
with a NOT_APPROVED error; the `catch` then marks the created order (if
any) FAILED, marks the intent FAILED with the error message as
`rejectionReason` — regardless of the intent's previous status —
increments the circuit breaker, and rethrows.  On success the order
becomes SUBMITTED with the broker id, the intent becomes EXECUTED, and
the circuit breaker is reset. -/
def executeTradeIntent (intent : Option TradeIntentRec) (env : ExecEnv) : ExecOutcome :=
  match intent with
  | none =>
    { intent := none, order := none,
      errorMessage := some "Trade intent not found",
      circuitBreakerIncremented := false, circuitBreakerWasReset := false }
  | some tradeIntent =>
    if tradeIntent.status ≠ "APPROVED" then
      let msg := "Trade intent not approved for execution. Status: " ++ tradeIntent.status
      { intent := some { tradeIntent with status := "FAILED", rejectionReason := some msg },
        order := none, errorMessage := some msg,
        circuitBreakerIncremented := true, circuitBreakerWasReset := false }
    else if ! env.hasActiveAccount then
      let msg := "No active Kite account found"
      { intent := some { tradeIntent with status := "FAILED", rejectionReason := some msg },
        order := none, errorMessage := some msg,
        circuitBreakerIncremented := true, circuitBreakerWasReset := false }
    else
      match env.placeOrderResult with
      | .error msg =>
        { intent := some { tradeIntent with status := "FAILED", rejectionReason := some msg },
          order := some { orderFromIntent tradeIntent with
                            status := "FAILED", statusMessage := some msg },
          errorMessage := some msg,
          circuitBreakerIncremented := true, circuitBreakerWasReset := false }
      | .ok orderId =>
        { intent := some { tradeIntent with status := "EXECUTED" },
          order := some { orderFromIntent tradeIntent with
                            kiteOrderId := some orderId, status := "SUBMITTED",
                            statusMessage := some "Order submitted successfully" },
          errorMessage := none,
          circuitBreakerIncremented := false, circuitBreakerWasReset := true }

/-- Outcome of one cancelOrder call: the stored Order row afterwards,
whether the broker `cancelOrder` call was reached, and the returned or
thrown result. -/
structure CancelOutcome where
  order : OrderRec
  calledBroker : Bool
  result : Except AppError Unit
deriving DecidableEq, Repr

/-- src/unnamed/part_012 lines 338-402 (`ExecutionService.cancelOrder`),
for a found order.  Cancellable statuses here are only
PENDING/SUBMITTED/OPEN; every error path leaves the row unchanged (the
single `order.update` follows broker success). -/
def cancelOrder (o : OrderRec) (hasActiveAccount : Bool)
    (brokerCancel : Except AppError Unit) : CancelOutcome :=
  if ! (["PENDING", "SUBMITTED", "OPEN"].contains o.status) then
    { order := o, calledBroker := false,
      result := .error (.orderExecution
        ("Cannot cancel order with status: " ++ o.status) "INVALID_STATUS") }
  else
    match o.kiteOrderId with
    | none =>
      { order := o, calledBroker := false,
        result := .error (.orderExecution "Order has no Kite order ID" "NO_KITE_ORDER") }
    | some _ =>
      if ! hasActiveAccount then
        { order := o, calledBroker := false,
          result := .error (.orderExecution "No active Kite account found" "NO_ACCOUNT") }
      else
        match brokerCancel with
        | .error e => { order := o, calledBroker := true, result := .error e }
        | .ok _ =>
          { order := { o with status := "CANCELLED",
                              statusMessage := some "Order cancelled by user" },
            calledBroker := true, result := .ok () }

end ExecutionService

namespace OrderService

/-- src/unnamed/part_012 lines 627-701 (`OrderService.cancelOrder`), for
a found order.  Cancellable statuses include TRIGGER_PENDING; an
uncancellable status or a missing broker id raise `BadRequestError`; the
`cancelledAt` timestamp set alongside the update is not modelled. -/
def cancelOrder (o : OrderRec) (hasActiveAccount : Bool)
    (brokerCancel : Except AppError Unit) : ExecutionService.CancelOutcome :=
  if ! (["PENDING", "SUBMITTED", "OPEN", "TRIGGER_PENDING"].contains o.status) then
    { order := o, calledBroker := false,
      result := .error (.badRequest
        ("Order cannot be cancelled. Current status: " ++ o.status)) }
  else
    match o.kiteOrderId with
    | none =>
      { order := o, calledBroker := false,
        result := .error (.badRequest "Order does not have a Kite order ID") }
    | some _ =>
      if ! hasActiveAccount then
        { order := o, calledBroker := false,
          result := .error (.orderExecution "No active Kite account found" "NO_ACCOUNT") }
      else
        match brokerCancel with
        | .error e => { order := o, calledBroker := true, result := .error e }
        | .ok _ =>
          { order := { o with status := "CANCELLED",
                              statusMessage := some "Order cancelled by user" },
            calledBroker := true, result := .ok () }

/-- The live-status refresh inside src/unnamed/part_012 lines 550-618
(`OrderService.getOrderById`): runs only when the order has a broker id
and its status is PENDING/SUBMITTED/OPEN/TRIGGER_PENDING; stores the RAW
broker status (no `mapKiteStatus`) when it differs; any error inside the
refresh is caught (warn only). -/
def getOrderByIdRefresh (o : OrderRec) (hasActiveAccount : Bool)
    (kiteData : Except Unit ExecutionService.KiteOrderData) : OrderRec :=
  if o.kiteOrderId.isSome &&
      ["PENDING", "SUBMITTED", "OPEN", "TRIGGER_PENDING"].contains o.status then
    if hasActiveAccount then
      match kiteData with
      | .error _ => o
      | .ok d =>
        if d.status ≠ o.status then
          { o with status := d.status,
                   statusMessage := d.status_message,
                   filledQuantity := d.filled_quantity,
                   averagePrice := d.average_price }
        else o
    else o
  else o

end OrderService

/-- The transition set asserted by the specification for trade intents
(spec.md section 3 / testable property 1): forward-only
PENDING→APPROVED/REJECTED, APPROVED→EXECUTED/FAILED. -/
def claimedIntentTransition (src dst : String) : Bool :=
  (src = "PENDING" && (dst = "APPROVED" || dst = "REJECTED")) ||
  (src = "APPROVED" && (dst = "EXECUTED" || dst = "FAILED"))

/-- The program operations that write a trade intent's status. -/
inductive IntentOp where
  | riskCheck (killSwitchEnabled : Bool) (results : List CheckResult)
  | reject (reason : Option String)
  | execute (env : ExecutionService.ExecEnv)

/-- Apply one operation to an intent row and return the row afterwards
(an operation that throws without reaching its intent update leaves the
row unchanged). -/
def applyIntentOp (op : IntentOp) (ti : TradeIntentRec) : TradeIntentRec :=
  match op with
  | .riskCheck ks results =>
    match RiskService.checkTradeIntent (some ti) ks results with
    | .ok out => out.intent
    | .error _ => ti
  | .reject reason => RiskService.rejectTradeIntent ti reason
  | .execute env =>
    match (ExecutionService.executeTradeIntent (some ti) env).intent with
    | some updated => updated
    | none => ti

/-- The state in which the orchestrator (queue workers) invokes each
operation: risk check and rejection act on freshly created PENDING
intents, execution on APPROVED ones (spec.md sections 2 and 4.4). -/
def intentOpGuard (op : IntentOp) (ti : TradeIntentRec) : Prop :=
  match op with
  | .riskCheck _ _ => ti.status = "PENDING"
  | .reject _ => ti.status = "PENDING"
  | .execute _ => ti.status = "APPROVED"

/-- Order statuses the specification calls terminal. -/
def terminalOrderStatuses : List String := ["COMPLETE", "CANCELLED", "REJECTED", "FAILED"]

/-- The specification's order fill invariant. -/
def fillWithinQuantity (o : OrderRec) : Prop := o.filledQuantity.getD 0 ≤ o.quantity

/-- A freshly created, not yet risk-checked trade intent. -/
def pendingIntent : TradeIntentRec :=
  { status := "PENDING", symbol := "RELIANCE", quantity := 10 }

/-- An execution environment where the broker accepts the order. -/
def executeEnvOk : ExecutionService.ExecEnv :=
  { hasActiveAccount := true, placeOrderResult := .ok "KITE1" }

/-- A user's ACTIVE 2 percent PERCENTAGE daily-loss limit. -/
def dailyLossLimit2pct : RiskLimit :=
  { limitType := "DAILY_LOSS", value := 2, unit := "PERCENTAGE" }

/-- One COMPLETE order from today realizing a loss of exactly 2000:
SELL fill of 10 at average 100 against an intent price of 300. -/
def lossOrdersExample : List OrderRec :=
  [{ status := "COMPLETE", transactionType := "SELL", quantity := 10,
     price := some 300, averagePrice := some 100, filledQuantity := some 10,
     updatedToday := true }]

/-- One COMPLETE order from today realizing a loss of exactly 1999. -/
def passOrdersExample : List OrderRec :=
  [{ status := "COMPLETE", transactionType := "SELL", quantity := 10,
     price := some (2999 / 10), averagePrice := some 100, filledQuantity := some 10,
     updatedToday := true }]

/-- A user-cancelled order with a broker id, in the terminal CANCELLED state. -/
def cancelledOrderExample : OrderRec :=
  { status := "CANCELLED", kiteOrderId := some "K1", quantity := 10,
    filledQuantity := some 0 }

/-- A broker poll report claiming the order is OPEN with 11 filled. -/
def overfilledOpenPoll : ExecutionService.KiteOrderData :=
  { status := "OPEN", filled_quantity := some 11, average_price := some 100 }

/-- A stop-loss order waiting on its trigger, with a broker id. -/
def triggerPendingOrder : OrderRec :=
  { status := "TRIGGER_PENDING", kiteOrderId := some "K2", quantity := 5,
    filledQuantity := some 0 }

/-- A submitted order with a broker id, used to instantiate C8. -/
def submittedOrderExample : OrderRec :=
  { status := "SUBMITTED", kiteOrderId := some "K3", quantity := 10,
    filledQuantity := some 0 }

/-- Broker reports used to instantiate the [OPEN, OPEN, COMPLETE] script. -/
def openPoll1 : ExecutionService.KiteOrderData :=
  { status := "OPEN", filled_quantity := some 0, average_price := none }

def openPoll2 : ExecutionService.KiteOrderData :=
  { status := "OPEN", filled_quantity := some 4, average_price := some 101 }

def completePoll : ExecutionService.KiteOrderData :=
  { status := "COMPLETE", filled_quantity := some 10, average_price := some 102,
    status_message := some "filled" }

/-!  ## Theorems settling the claims  -/

/-- C3 counterexample: starting from the flag state with no kill-switch
row, two consecutive `enable` calls perform the square-off/cancel unwind
pass zero times, not exactly once — `findOrCreate` creates the row
already enabled and the `already enabled` early return skips the unwind. -/
theorem C3_enable_unwind_counterexample :
    ¬ ((KillSwitchService.enable none).unwindPasses +
       (KillSwitchService.enable (KillSwitchService.enable none).flag).unwindPasses = 1) := by
  decide

/-- C3 amended: `enable` on an already-enabled switch (and the second of
two consecutive `enable` calls) never re-runs the unwind, and the unwind
runs exactly once across two `enable` calls only when a disabled flag row
existed (zero times from an absent or already-enabled flag because
creation short-circuits it); `autoTrigger` runs the unwind on every call,
even when the switch is already enabled; `disable` when the switch is
already disabled — including when no flag row exists — returns success. -/
theorem C3_toggle_idempotence_amended :
    (∀ f, (KillSwitchService.enable (KillSwitchService.enable f).flag).unwindPasses = 0) ∧
    (KillSwitchService.enable (some false)).unwindPasses = 1 ∧
    (KillSwitchService.enable none).unwindPasses = 0 ∧
    (KillSwitchService.enable (some true)).unwindPasses = 0 ∧
    (∀ f, (KillSwitchService.autoTrigger f).unwindPasses = 1) ∧
    (∀ f, (KillSwitchService.disable f).success = true ∧
          (KillSwitchService.disable f).unwindPasses = 0) := by
  decide

/-- C4: from an absent counter, five fault-free increments (threshold
default 5) leave the count at 5 and invoke the kill-switch auto-trigger
exactly once — on the fifth increment, none before (every shorter run
triggers zero times); `checkCircuitBreaker` then reports a critical
failure, and one `resetCircuitBreaker` empties the entry so the check
passes again. -/
theorem C4_circuit_breaker_threshold :
    RiskService.incrementRun 5 none RiskService.circuitBreakerThreshold = (some 5, 1) ∧
    (∀ k, k < 5 →
      (RiskService.incrementRun k none RiskService.circuitBreakerThreshold).2 = 0) ∧
    (RiskService.incrementCircuitBreaker (some 4) true true
        RiskService.circuitBreakerThreshold).autoTriggered = true ∧
    (RiskService.checkCircuitBreaker (some 5) true
        RiskService.circuitBreakerThreshold).passed = false ∧
    (RiskService.checkCircuitBreaker (some 5) true
        RiskService.circuitBreakerThreshold).critical = true ∧
    RiskService.resetCircuitBreaker (some 5) true = none ∧
    (RiskService.checkCircuitBreaker
        (RiskService.resetCircuitBreaker (some 5) true) true
        RiskService.circuitBreakerThreshold).passed = true := by
  decide

/-- C4 witness: a shorter run (three increments) fires no auto-trigger. -/
theorem C4_circuit_breaker_threshold_witness :
    3 < 5 ∧ (RiskService.incrementRun 3 none RiskService.circuitBreakerThreshold).2 = 0 :=
  ⟨by decide, C4_circuit_breaker_threshold.2.1 3 (by decide)⟩

/-- C5: `isEnabled` returns true whenever an executed cache or store read
throws (and also when the cache write-back throws); `enforce` throws a
`KillSwitchError` — a constructor distinct from the validation/rejection
error kinds — exactly when `isEnabled` returns true, and returns normally
otherwise. -/
theorem C5_kill_switch_fail_safe (cacheGet : Except Unit (Option Bool))
    (dbFind : Except Unit (Option Bool)) (cacheSet : Except Unit Unit) :
    (cacheGet = .error () → KillSwitchService.isEnabled cacheGet dbFind cacheSet = true) ∧
    (cacheGet = .ok none → dbFind = .error () →
      KillSwitchService.isEnabled cacheGet dbFind cacheSet = true) ∧
    (cacheGet = .ok none → dbFind = .ok none → cacheSet = .error () →
      KillSwitchService.isEnabled cacheGet dbFind cacheSet = true) ∧
    ((∃ m, KillSwitchService.enforce cacheGet dbFind cacheSet = .error (.killSwitch m)) ↔
      KillSwitchService.isEnabled cacheGet dbFind cacheSet = true) ∧
    (KillSwitchService.isEnabled cacheGet dbFind cacheSet = false →
      KillSwitchService.enforce cacheGet dbFind cacheSet = .ok ()) ∧
    (∀ m m2, AppError.killSwitch m ≠ AppError.badRequest m2 ∧
             AppError.killSwitch m ≠ AppError.riskViolation m2 ∧
             ∀ c, AppError.killSwitch m ≠ AppError.orderExecution m2 c) := by
  refine ⟨?_, ?_, ?_, ?_, ?_, ?_⟩
  · intro h; subst h; rfl
  · intro h1 h2; subst h1; subst h2; rfl
  · intro h1 h2 h3; subst h1; subst h2; subst h3; rfl
  · unfold KillSwitchService.enforce
    by_cases h : KillSwitchService.isEnabled cacheGet dbFind cacheSet = true
    · simp [h]
    · simp [h]
  · intro h
    unfold KillSwitchService.enforce
    simp [h]
  · intro m m2
    refine ⟨by simp, by simp, fun c => by simp⟩

/-- C5 witness: a throwing cache read yields `isEnabled = true`. -/
theorem C5_kill_switch_fail_safe_witness :
    KillSwitchService.isEnabled (Except.error ()) (Except.ok none) (Except.ok ()) = true :=
  (C5_kill_switch_fail_safe (Except.error ()) (Except.ok none) (Except.ok ())).1 rfl

/-- C9: with the kill switch enabled, `checkTradeIntent` resolves
normally (no `KillSwitchError`), updating the intent to REJECTED with
rejectionReason "Kill switch is enabled", evaluating none of the four
risk checks, enqueuing no execution job, and auto-triggering nothing. -/
theorem C9_kill_switch_consumes_intent (ti : TradeIntentRec) (results : List CheckResult) :
    RiskService.checkTradeIntent (some ti) true results =
      .ok { intent := { ti with status := "REJECTED",
                                rejectionReason := some "Kill switch is enabled" },
            checksEvaluated := false, executionEnqueued := false,
            autoTriggered := false, passed := false } := by
  rfl

/-- C10: a throwing cache read makes `checkCircuitBreaker` pass
(fail-open); `incrementCircuitBreaker` and `resetCircuitBreaker` catch
every cache error (their `try` bodies reject, yet the calls return
normally with the entry unchanged), and a failed read or write suppresses
the kill-switch auto-trigger — the opposite polarity of the kill switch's
fail-safe-true read. -/
theorem C10_circuit_breaker_fail_open (entry : Option Nat) (setOk : Bool) (threshold : Nat) :
    (RiskService.checkCircuitBreaker entry false threshold).passed = true ∧
    RiskService.incrementCircuitBreakerTry entry false setOk threshold = .error () ∧
    RiskService.incrementCircuitBreaker entry false setOk threshold =
      { entry := entry, autoTriggered := false } ∧
    RiskService.incrementCircuitBreakerTry entry true false threshold = .error () ∧
    RiskService.incrementCircuitBreaker entry true false threshold =
      { entry := entry, autoTriggered := false } ∧
    RiskService.resetCircuitBreakerTry entry false = .error () ∧
    RiskService.resetCircuitBreaker entry false = entry := by
  refine ⟨rfl, ?_, ?_, ?_, ?_, rfl, rfl⟩
  · cases setOk <;> rfl
  · cases setOk <;> rfl
  · rfl
  · rfl

/-- C6: under an ACTIVE DAILY_LOSS limit of 2 PERCENTAGE and account
value 100000, a realized daily loss of exactly 2000 fails
`checkDailyLoss` with critical = true, while a loss of 1999 passes. -/
theorem C6_daily_loss_boundary (lossOrders passOrders : List OrderRec)
    (h1 : RiskService.realizedPnlToday lossOrders = -2000)
    (h2 : RiskService.realizedPnlToday passOrders = -1999) :
    ((RiskService.checkDailyLoss (some dailyLossLimit2pct) lossOrders 100000).passed = false ∧
     (RiskService.checkDailyLoss (some dailyLossLimit2pct) lossOrders 100000).critical = true) ∧
    (RiskService.checkDailyLoss (some dailyLossLimit2pct) passOrders 100000).passed = true := by
  have e1 : RiskService.checkDailyLoss (some dailyLossLimit2pct) lossOrders 100000 =
      { passed := false, check := "DAILY_LOSS",
        reason := some "Daily loss limit exceeded", critical := true } := by
    simp only [RiskService.checkDailyLoss, h1, dailyLossLimit2pct]
    norm_num [abs_of_nonpos]
  have e2 : RiskService.checkDailyLoss (some dailyLossLimit2pct) passOrders 100000 =
      { passed := true, check := "DAILY_LOSS" } := by
    simp only [RiskService.checkDailyLoss, h2, dailyLossLimit2pct]
    norm_num [abs_of_nonpos]
  rw [e1, e2]
  exact ⟨⟨rfl, rfl⟩, rfl⟩

/-- C6 witness: concrete COMPLETE orders realizing losses of exactly
2000 and 1999. -/
theorem C6_daily_loss_boundary_witness :
    RiskService.realizedPnlToday lossOrdersExample = -2000 ∧
    RiskService.realizedPnlToday passOrdersExample = -1999 ∧
    (((RiskService.checkDailyLoss (some dailyLossLimit2pct) lossOrdersExample 100000).passed = false ∧
      (RiskService.checkDailyLoss (some dailyLossLimit2pct) lossOrdersExample 100000).critical = true) ∧
     (RiskService.checkDailyLoss (some dailyLossLimit2pct) passOrdersExample 100000).passed = true) :=
  ⟨by norm_num [RiskService.realizedPnlToday, lossOrdersExample,
      RiskService.orderPnlContribution, RiskService.truthy] <;> decide,
   by norm_num [RiskService.realizedPnlToday, passOrdersExample,
      RiskService.orderPnlContribution, RiskService.truthy] <;> decide,
   C6_daily_loss_boundary lossOrdersExample passOrdersExample
     (by norm_num [RiskService.realizedPnlToday, lossOrdersExample,
        RiskService.orderPnlContribution, RiskService.truthy] <;> decide)
     (by norm_num [RiskService.realizedPnlToday, passOrdersExample,
        RiskService.orderPnlContribution, RiskService.truthy] <;> decide)⟩

/-- C8: against a broker status script [OPEN, OPEN, COMPLETE] (whatever
polls might follow), the reconciliation loop issues exactly three polls,
leaves the order COMPLETE, and keeps the third poll's filled quantity and
average price. -/
theorem C8_reconciliation_terminates (o : OrderRec) (k : String)
    (hk : o.kiteOrderId = some k)
    (d1 d2 d3 : ExecutionService.KiteOrderData)
    (h1 : d1.status = "OPEN") (h2 : d2.status = "OPEN") (h3 : d3.status = "COMPLETE")
    (rest : List ExecutionService.PollResult) :
    (ExecutionService.monitorLoop 60 o
      (.withData d1 :: .withData d2 :: .withData d3 :: rest)).2 = 3 ∧
    (ExecutionService.monitorLoop 60 o
      (.withData d1 :: .withData d2 :: .withData d3 :: rest)).1.status = "COMPLETE" ∧
    (ExecutionService.monitorLoop 60 o
      (.withData d1 :: .withData d2 :: .withData d3 :: rest)).1.filledQuantity =
        d3.filled_quantity ∧
    (ExecutionService.monitorLoop 60 o
      (.withData d1 :: .withData d2 :: .withData d3 :: rest)).1.averagePrice =
        d3.average_price := by
  obtain ⟨st, kid, tt, q, pr, ap, fq, sm, ut⟩ := o
  obtain ⟨s1, ap1, fq1, sm1⟩ := d1
  obtain ⟨s2, ap2, fq2, sm2⟩ := d2
  obtain ⟨s3, ap3, fq3, sm3⟩ := d3
  dsimp only at hk h1 h2 h3
  subst hk h1 h2 h3
  exact ⟨rfl, rfl, rfl, rfl⟩

/-- C8 witness: a SUBMITTED order with broker id K3 against a concrete
[OPEN, OPEN, COMPLETE] script followed by one more available poll. -/
theorem C8_reconciliation_terminates_witness :
    submittedOrderExample.kiteOrderId = some "K3" ∧
    openPoll1.status = "OPEN" ∧ openPoll2.status = "OPEN" ∧
    completePoll.status = "COMPLETE" ∧
    ((ExecutionService.monitorLoop 60 submittedOrderExample
       (.withData openPoll1 :: .withData openPoll2 :: .withData completePoll ::
         [.withData completePoll])).2 = 3 ∧
     (ExecutionService.monitorLoop 60 submittedOrderExample
       (.withData openPoll1 :: .withData openPoll2 :: .withData completePoll ::
         [.withData completePoll])).1.status = "COMPLETE" ∧
     (ExecutionService.monitorLoop 60 submittedOrderExample
       (.withData openPoll1 :: .withData openPoll2 :: .withData completePoll ::
         [.withData completePoll])).1.filledQuantity = completePoll.filled_quantity ∧
     (ExecutionService.monitorLoop 60 submittedOrderExample
       (.withData openPoll1 :: .withData openPoll2 :: .withData completePoll ::
         [.withData completePoll])).1.averagePrice = completePoll.average_price) :=
  ⟨rfl, rfl, rfl, rfl,
   C8_reconciliation_terminates submittedOrderExample "K3" rfl
     openPoll1 openPoll2 completePoll rfl rfl rfl [.withData completePoll]⟩

/-- C1 counterexample: `executeTradeIntent` invoked on a PENDING intent
(as an at-least-once queue can do) throws NOT_APPROVED, and its `catch`
handler still marks the intent FAILED — the transition PENDING→FAILED,
which the claim excludes. -/
theorem C1_intent_transition_counterexample :
    pendingIntent.status = "PENDING" ∧
    (applyIntentOp (.execute executeEnvOk) pendingIntent).status = "FAILED" ∧
    claimedIntentTransition "PENDING" "FAILED" = false := by
  exact ⟨rfl, rfl, rfl⟩

/-- C1 amended: provided each operation runs in its intended source
state — `checkTradeIntent` and `rejectTradeIntent` on PENDING intents,
`executeTradeIntent` on APPROVED intents — every produced transition is
one of PENDING→APPROVED, PENDING→REJECTED, APPROVED→EXECUTED,
APPROVED→FAILED (and hence any sequence of guarded operations stays
within the claimed transition relation); without the guard,
`executeTradeIntent`'s failure handler moves any non-APPROVED status to
FAILED. -/
theorem C1_intent_transitions_amended (op : IntentOp) (ti : TradeIntentRec)
    (h : intentOpGuard op ti) :
    claimedIntentTransition ti.status (applyIntentOp op ti).status = true := by
  cases op with
  | riskCheck ks results =>
    have hs : ti.status = "PENDING" := h
    cases ks with
    | true =>
      simp [applyIntentOp, RiskService.checkTradeIntent,
        RiskService.rejectTradeIntent, hs, claimedIntentTransition]
    | false =>
      cases hfind : results.find? (fun r => ! r.passed) with
      | some f =>
        simp [applyIntentOp, RiskService.checkTradeIntent, hfind,
          RiskService.rejectTradeIntent, hs, claimedIntentTransition]
      | none =>
        simp [applyIntentOp, RiskService.checkTradeIntent, hfind, hs,
          claimedIntentTransition]
  | reject reason =>
    have hs : ti.status = "PENDING" := h
    simp [applyIntentOp, RiskService.rejectTradeIntent, hs, claimedIntentTransition]
  | execute env =>
    have hs : ti.status = "APPROVED" := h
    obtain ⟨acc, por⟩ := env
    cases acc with
    | false =>
      simp [applyIntentOp, ExecutionService.executeTradeIntent, hs,
        claimedIntentTransition]
    | true =>
      cases por with
      | error m =>
        simp [applyIntentOp, ExecutionService.executeTradeIntent, hs,
          claimedIntentTransition]
      | ok oid =>
        simp [applyIntentOp, ExecutionService.executeTradeIntent, hs,
          claimedIntentTransition]

/-- C1 witness: rejecting a PENDING intent is a claimed transition. -/
theorem C1_intent_transitions_amended_witness :
    intentOpGuard (.reject (some "limit")) pendingIntent ∧
    claimedIntentTransition pendingIntent.status
      (applyIntentOp (.reject (some "limit")) pendingIntent).status = true :=
  ⟨rfl, C1_intent_transitions_amended (.reject (some "limit")) pendingIntent rfl⟩

/-- C2 counterexample: a reconciliation poll on a CANCELLED (terminal)
order whose broker report says OPEN with 11 filled against quantity 10
moves the order back to OPEN and stores a fill above the quantity —
refuting both halves of the claim as stated. -/
theorem C2_order_invariant_counterexample :
    terminalOrderStatuses.contains cancelledOrderExample.status = true ∧
    (ExecutionService.monitorPollUpdate cancelledOrderExample
        (.withData overfilledOpenPoll)).1.status = "OPEN" ∧
    ¬ fillWithinQuantity
        (ExecutionService.monitorPollUpdate cancelledOrderExample
          (.withData overfilledOpenPoll)).1 := by
  refine ⟨rfl, rfl, ?_⟩
  norm_num [fillWithinQuantity, ExecutionService.monitorPollUpdate,
    ExecutionService.mapKiteStatus, cancelledOrderExample, overfilledOpenPoll]

/-- C2 amended: the user cancel (both services), the kill-switch cancel
pass and the getOrderById refresh never touch an order whose status is
terminal, and each preserves `filledQuantity ≤ quantity` (the cancel
paths write no fill fields; the refresh keeps the invariant whenever the
broker-reported fill respects the quantity).  A reconciliation poll,
however, overwrites status and fill unconditionally: it keeps the
invariant exactly when the broker report does, and (per the
counterexample) can leave a terminal status. -/
theorem C2_order_invariants_amended :
    (∀ (o : OrderRec) (acc : Bool) (b : Except AppError Unit),
        o.status = "COMPLETE" ∨ o.status = "CANCELLED" ∨
          o.status = "REJECTED" ∨ o.status = "FAILED" →
        (ExecutionService.cancelOrder o acc b).order = o) ∧
    (∀ (o : OrderRec) (acc : Bool) (b : Except AppError Unit),
        o.status = "COMPLETE" ∨ o.status = "CANCELLED" ∨
          o.status = "REJECTED" ∨ o.status = "FAILED" →
        (OrderService.cancelOrder o acc b).order = o) ∧
    (∀ (o : OrderRec) (b : Except Unit Unit),
        o.status = "COMPLETE" ∨ o.status = "CANCELLED" ∨
          o.status = "REJECTED" ∨ o.status = "FAILED" →
        KillSwitchService.cancelPendingOrderStep o b = o) ∧
    (∀ (o : OrderRec) (acc : Bool) (d : Except Unit ExecutionService.KiteOrderData),
        o.status = "COMPLETE" ∨ o.status = "CANCELLED" ∨
          o.status = "REJECTED" ∨ o.status = "FAILED" →
        OrderService.getOrderByIdRefresh o acc d = o) ∧
    (∀ (o : OrderRec) (acc : Bool) (b : Except AppError Unit),
        fillWithinQuantity o →
        fillWithinQuantity (ExecutionService.cancelOrder o acc b).order) ∧
    (∀ (o : OrderRec) (acc : Bool) (b : Except AppError Unit),
        fillWithinQuantity o →
        fillWithinQuantity (OrderService.cancelOrder o acc b).order) ∧
    (∀ (o : OrderRec) (b : Except Unit Unit),
        fillWithinQuantity o →
        fillWithinQuantity (KillSwitchService.cancelPendingOrderStep o b)) ∧
    (∀ (o : OrderRec) (d : ExecutionService.KiteOrderData),
        d.filled_quantity.getD 0 ≤ o.quantity →
        fillWithinQuantity (ExecutionService.monitorPollUpdate o (.withData d)).1) ∧
    (∀ (o : OrderRec) (acc : Bool) (d : ExecutionService.KiteOrderData),
        fillWithinQuantity o → d.filled_quantity.getD 0 ≤ o.quantity →
        fillWithinQuantity (OrderService.getOrderByIdRefresh o acc (.ok d))) := by
  refine ⟨?_, ?_, ?_, ?_, ?_, ?_, ?_, ?_, ?_⟩
  · intro o acc b h
    obtain ⟨st, kid, tt, q, pr, ap, fq, sm, ut⟩ := o
    dsimp only at h
    rcases h with h | h | h | h <;> subst h <;> rfl
  · intro o acc b h
    obtain ⟨st, kid, tt, q, pr, ap, fq, sm, ut⟩ := o
    dsimp only at h
    rcases h with h | h | h | h <;> subst h <;> rfl
  · intro o b h
    obtain ⟨st, kid, tt, q, pr, ap, fq, sm, ut⟩ := o
    dsimp only at h
    rcases h with h | h | h | h <;> subst h <;> rfl
  · intro o acc d h
    obtain ⟨st, kid, tt, q, pr, ap, fq, sm, ut⟩ := o
    dsimp only at h
    rcases h with h | h | h | h <;> subst h <;> cases kid <;> rfl
  · intro o acc b hfq
    have hq : (ExecutionService.cancelOrder o acc b).order.filledQuantity = o.filledQuantity ∧
        (ExecutionService.cancelOrder o acc b).order.quantity = o.quantity := by
      unfold ExecutionService.cancelOrder
      repeat' split
      all_goals exact ⟨rfl, rfl⟩
    unfold fillWithinQuantity at hfq ⊢
    rw [hq.1, hq.2]
    exact hfq
  · intro o acc b hfq
    have hq : (OrderService.cancelOrder o acc b).order.filledQuantity = o.filledQuantity ∧
        (OrderService.cancelOrder o acc b).order.quantity = o.quantity := by
      unfold OrderService.cancelOrder
      repeat' split
      all_goals exact ⟨rfl, rfl⟩
    unfold fillWithinQuantity at hfq ⊢
    rw [hq.1, hq.2]
    exact hfq
  · intro o b hfq
    have hq : (KillSwitchService.cancelPendingOrderStep o b).filledQuantity = o.filledQuantity ∧
        (KillSwitchService.cancelPendingOrderStep o b).quantity = o.quantity := by
      unfold KillSwitchService.cancelPendingOrderStep
      repeat' split
      all_goals exact ⟨rfl, rfl⟩
    unfold fillWithinQuantity at hfq ⊢
    rw [hq.1, hq.2]
    exact hfq
  · intro o d hd
    simpa [ExecutionService.monitorPollUpdate, fillWithinQuantity] using hd
  · intro o acc d hfq hd
    simp only [OrderService.getOrderByIdRefresh]
    repeat' split
    all_goals first
      | exact hfq
      | simpa [fillWithinQuantity] using hd

/-- C2 witness: the user cancel leaves a CANCELLED order untouched. -/
theorem C2_order_invariants_amended_witness :
    (cancelledOrderExample.status = "COMPLETE" ∨ cancelledOrderExample.status = "CANCELLED" ∨
      cancelledOrderExample.status = "REJECTED" ∨ cancelledOrderExample.status = "FAILED") ∧
    (ExecutionService.cancelOrder cancelledOrderExample true (.ok ())).order =
      cancelledOrderExample :=
  ⟨Or.inr (Or.inl rfl),
   C2_order_invariants_amended.1 cancelledOrderExample true (.ok ()) (Or.inr (Or.inl rfl))⟩

/-- C7 counterexample: `ExecutionService.cancelOrder` on a
TRIGGER_PENDING order with a broker id does not proceed to the broker —
it raises INVALID_STATUS — although the claimed cancellable set contains
TRIGGER_PENDING. -/
theorem C7_cancel_counterexample :
    ["PENDING", "SUBMITTED", "OPEN", "TRIGGER_PENDING"].contains
      triggerPendingOrder.status = true ∧
    triggerPendingOrder.kiteOrderId.isSome = true ∧
    (ExecutionService.cancelOrder triggerPendingOrder true (.ok ())).calledBroker = false ∧
    (ExecutionService.cancelOrder triggerPendingOrder true (.ok ())).result =
      .error (.orderExecution
        "Cannot cancel order with status: TRIGGER_PENDING" "INVALID_STATUS") := by
  exact ⟨rfl, rfl, rfl, rfl⟩

/-- C7 amended: `OrderService.cancelOrder` reaches the broker exactly
when the status is in PENDING/SUBMITTED/OPEN/TRIGGER_PENDING, a broker
order id exists and an active broker account is available;
`ExecutionService.cancelOrder` behaves the same but WITHOUT
TRIGGER_PENDING in its cancellable set.  On broker success both set
status CANCELLED with the user-attributed message; a non-cancellable
status raises a rejection-class error (BadRequestError, resp.
OrderExecutionError INVALID_STATUS) leaving the order unmodified. -/
theorem C7_cancel_order_amended :
    (∀ (o : OrderRec) (acc : Bool) (b : Except AppError Unit),
        (OrderService.cancelOrder o acc b).calledBroker =
          (["PENDING", "SUBMITTED", "OPEN", "TRIGGER_PENDING"].contains o.status &&
           o.kiteOrderId.isSome && acc)) ∧
    (∀ (o : OrderRec) (acc : Bool) (b : Except AppError Unit),
        (ExecutionService.cancelOrder o acc b).calledBroker =
          (["PENDING", "SUBMITTED", "OPEN"].contains o.status &&
           o.kiteOrderId.isSome && acc)) ∧
    (∀ (o : OrderRec),
        ["PENDING", "SUBMITTED", "OPEN", "TRIGGER_PENDING"].contains o.status = true →
        o.kiteOrderId.isSome = true →
        OrderService.cancelOrder o true (.ok ()) =
          { order := { o with status := "CANCELLED",
                              statusMessage := some "Order cancelled by user" },
            calledBroker := true, result := .ok () }) ∧
    (∀ (o : OrderRec),
        ["PENDING", "SUBMITTED", "OPEN"].contains o.status = true →
        o.kiteOrderId.isSome = true →
        ExecutionService.cancelOrder o true (.ok ()) =
          { order := { o with status := "CANCELLED",
                              statusMessage := some "Order cancelled by user" },
            calledBroker := true, result := .ok () }) ∧
    (∀ (o : OrderRec) (acc : Bool) (b : Except AppError Unit),
        ["PENDING", "SUBMITTED", "OPEN", "TRIGGER_PENDING"].contains o.status = false →
        (OrderService.cancelOrder o acc b).order = o ∧
        (OrderService.cancelOrder o acc b).result =
          .error (.badRequest ("Order cannot be cancelled. Current status: " ++ o.status))) ∧
    (∀ (o : OrderRec) (acc : Bool) (b : Except AppError Unit),
        ["PENDING", "SUBMITTED", "OPEN"].contains o.status = false →
        (ExecutionService.cancelOrder o acc b).order = o ∧
        (ExecutionService.cancelOrder o acc b).result =
          .error (.orderExecution
            ("Cannot cancel order with status: " ++ o.status) "INVALID_STATUS")) := by
  refine ⟨?_, ?_, ?_, ?_, ?_, ?_⟩
  · intro o acc b
    unfold OrderService.cancelOrder
    cases hc : (["PENDING", "SUBMITTED", "OPEN", "TRIGGER_PENDING"].contains o.status) with
    | false => simp [hc]
    | true => cases hk : o.kiteOrderId with
      | none => simp [hc, hk]
      | some k => cases acc <;> cases b <;> simp [hc, hk]
  · intro o acc b
    unfold ExecutionService.cancelOrder
    cases hc : (["PENDING", "SUBMITTED", "OPEN"].contains o.status) with
    | false => simp [hc]
    | true => cases hk : o.kiteOrderId with
      | none => simp [hc, hk]
      | some k => cases acc <;> cases b <;> simp [hc, hk]
  · intro o hs hk
    obtain ⟨k, hk2⟩ := Option.isSome_iff_exists.mp hk
    have hs2 : o.status = "PENDING" ∨ o.status = "SUBMITTED" ∨
        o.status = "OPEN" ∨ o.status = "TRIGGER_PENDING" := by simpa using hs
    rcases hs2 with h | h | h | h <;> simp [OrderService.cancelOrder, h, hk2]
  · intro o hs hk
    obtain ⟨k, hk2⟩ := Option.isSome_iff_exists.mp hk
    have hs2 : o.status = "PENDING" ∨ o.status = "SUBMITTED" ∨
        o.status = "OPEN" := by simpa using hs
    rcases hs2 with h | h | h <;> simp [ExecutionService.cancelOrder, h, hk2]
  · intro o acc b hc
    have hs2 : ¬ o.status = "PENDING" ∧ ¬ o.status = "SUBMITTED" ∧
        ¬ o.status = "OPEN" ∧ ¬ o.status = "TRIGGER_PENDING" := by simpa using hc
    simp [OrderService.cancelOrder, hs2.1, hs2.2.1, hs2.2.2.1, hs2.2.2.2]
  · intro o acc b hc
    have hs2 : ¬ o.status = "PENDING" ∧ ¬ o.status = "SUBMITTED" ∧
        ¬ o.status = "OPEN" := by simpa using hc
    simp [ExecutionService.cancelOrder, hs2.1, hs2.2.1, hs2.2.2]

/-- C7 witness: a TRIGGER_PENDING order cancels successfully through
`OrderService.cancelOrder`. -/
theorem C7_cancel_order_amended_witness :
    ["PENDING", "SUBMITTED", "OPEN", "TRIGGER_PENDING"].contains
      triggerPendingOrder.status = true ∧
    triggerPendingOrder.kiteOrderId.isSome = true ∧
    OrderService.cancelOrder triggerPendingOrder true (.ok ()) =
      { order :=
          { triggerPendingOrder with
              status := "CANCELLED",
              statusMessage := some "Order cancelled by user" },
        calledBroker := true, result := .ok () } :=
  ⟨rfl, rfl, C7_cancel_order_amended.2.2.1 triggerPendingOrder rfl rfl⟩

end TradingEngine
